import Mathlib

/-!
# Verification of `.builder/integration-testing/java_elasticurl_runner.py`

Shallow embedding of the elasticurl integration-test runner script.
The script builds an `mvn` command string from its forwarded CLI
arguments, runs it through a shell with a 100 second timeout, and on
nonzero exit or timeout prints the command and the captured output
before raising a `RuntimeError`.

Modelling decisions:
* Strings are Lean `String`s; the raw captured subprocess output is a
  `List Nat` of byte values.
* The subprocess itself is external, so its possible behaviours are an
  inductive `ProcBehavior`: the `communicate(timeout=TIMEOUT)` call
  either returns (process completed with some exit code and output),
  raises `TimeoutExpired`, or raises some other exception.  Everything
  the script does with that behaviour is translated from the source.
* Side effects are reified: `run_command` returns the list of printed
  lines, the raised error (if any), and a trace of process-level
  actions (spawn / wait / kill / second collection) in program order.
* Python's `bytes.decode()` (strict UTF-8) and `bytes.splitlines()` are
  implemented over `List Nat`.
-/

/-- `TIMEOUT = 100` from the script. -/
def TIMEOUT : Nat := 100

/-- `mvn_args = " ".join(elasticurl_args)`. -/
def mvn_args (elasticurl_args : List String) : String :=
  String.intercalate " " elasticurl_args

/-- The `java_command` list literal from the script.  In the Python
source the elements are single-quoted strings in which `\"` denotes a
plain double-quote character. -/
def java_command (elasticurl_args : List String) : List String :=
  ["mvn", "-e", "exec:java", "-Dexec.classpathScope=\"test\"",
   "-Dexec.mainClass=\"software.amazon.awssdk.crt.test.Elasticurl\"",
   "-Dexec.args=\"" ++ mvn_args elasticurl_args ++ "\""]

/-- `command_string = " ".join(java_command)`. -/
def command_string (elasticurl_args : List String) : String :=
  String.intercalate " " (java_command elasticurl_args)

/-- Is `b` a UTF-8 continuation byte (`0x80..0xBF`)? -/
def isCont (b : Nat) : Bool := 0x80 ≤ b && b ≤ 0xBF

/-- Range check for the first continuation byte after a three-byte lead:
`E0` requires `A0..BF`, `ED` requires `80..9F` (no surrogates), other
leads require `80..BF`. -/
def cont1Range3 (lead b : Nat) : Bool :=
  if lead = 0xE0 then 0xA0 ≤ b && b ≤ 0xBF
  else if lead = 0xED then 0x80 ≤ b && b ≤ 0x9F
  else isCont b

/-- Range check for the first continuation byte after a four-byte lead:
`F0` requires `90..BF`, `F4` requires `80..8F` (max U+10FFFF), other
leads require `80..BF`. -/
def cont1Range4 (lead b : Nat) : Bool :=
  if lead = 0xF0 then 0x90 ≤ b && b ≤ 0xBF
  else if lead = 0xF4 then 0x80 ≤ b && b ≤ 0x8F
  else isCont b

/-- Strict UTF-8 decoding of a byte list to a character list, following
CPython's `bytes.decode()` with the default codec and strict error
handling: rejects continuation-byte errors, truncated sequences,
overlong forms, surrogates and code points above U+10FFFF. -/
def utf8DecodeList : List Nat → Option (List Char)
  | [] => some []
  | b :: bs =>
    if b ≤ 0x7F then
      (utf8DecodeList bs).map (fun cs => Char.ofNat b :: cs)
    else if 0xC2 ≤ b && b ≤ 0xDF then
      match bs with
      | b1 :: bs1 =>
        if isCont b1 then
          (utf8DecodeList bs1).map
            (fun cs => Char.ofNat ((b - 0xC0) * 0x40 + (b1 - 0x80)) :: cs)
        else none
      | [] => none
    else if 0xE0 ≤ b && b ≤ 0xEF then
      match bs with
      | b1 :: b2 :: bs2 =>
        if cont1Range3 b b1 && isCont b2 then
          (utf8DecodeList bs2).map
            (fun cs => Char.ofNat
              ((b - 0xE0) * 0x1000 + (b1 - 0x80) * 0x40 + (b2 - 0x80)) :: cs)
        else none
      | _ => none
    else if 0xF0 ≤ b && b ≤ 0xF4 then
      match bs with
      | b1 :: b2 :: b3 :: bs3 =>
        if cont1Range4 b b1 && isCont b2 && isCont b3 then
          (utf8DecodeList bs3).map
            (fun cs => Char.ofNat
              ((b - 0xF0) * 0x40000 + (b1 - 0x80) * 0x1000
                + (b2 - 0x80) * 0x40 + (b3 - 0x80)) :: cs)
        else none
      | _ => none
    else none

/-- `line.decode()`: strict UTF-8 decoding of a byte line to a string,
`none` when CPython would raise `UnicodeDecodeError`. -/
def utf8Decode (l : List Nat) : Option String :=
  (utf8DecodeList l).map String.mk

/-- Worker for `bytes.splitlines()`: accumulates the current line in
reverse; line breaks are `\n`, `\r\n` and `\r`; a trailing fragment is
emitted only when nonempty. -/
def bsplitlinesGo : List Nat → List Nat → List (List Nat)
  | [], acc => if acc.isEmpty then [] else [acc.reverse]
  | 10 :: rest, acc => acc.reverse :: bsplitlinesGo rest []
  | 13 :: 10 :: rest, acc => acc.reverse :: bsplitlinesGo rest []
  | 13 :: rest, acc => acc.reverse :: bsplitlinesGo rest []
  | b :: rest, acc => bsplitlinesGo rest (b :: acc)

/-- `output.splitlines()` on a byte string. -/
def bsplitlines (output : List Nat) : List (List Nat) :=
  bsplitlinesGo output []

/-- The `for line in output.splitlines(): print(line.decode())` loop:
returns the lines printed (in order) and whether the loop ran to
completion (`false` when a `line.decode()` raised, which aborts the
loop at that line). -/
def printOutputLines : List (List Nat) → List String × Bool
  | [] => ([], true)
  | l :: ls =>
    match utf8Decode l with
    | none => ([], false)
    | some s =>
      let r := printOutputLines ls
      (s :: r.1, r.2)

/-- All lines decoded successfully, with the decoded results. -/
def allDecode : List (List Nat) → Option (List String)
  | [] => some []
  | l :: ls =>
    match utf8Decode l, allDecode ls with
    | some s, some ss => some (s :: ss)
    | _, _ => none

/-- How the `process.communicate(timeout=TIMEOUT)` wait resolves.
`completes`: returns within the timeout, with the process's exit code
and the combined captured output bytes.  `timesOut`: raises
`subprocess.TimeoutExpired`; the script then kills the process and the
second `communicate()` yields the given exit code (of the killed
process) and the full captured output bytes.  `waitFails`: raises some
other exception (named by a string); `output` is then never bound, and
`process.returncode` is `None` or some integer. -/
inductive ProcBehavior where
  | completes (returncode : Int) (output : List Nat)
  | timesOut (killedReturncode : Int) (output : List Nat)
  | waitFails (excName : String) (returncode : Option Int)
deriving DecidableEq

/-- The error `run_command` terminates with, when it does not return
normally.  `timeout` and `nonZeroExit` are the two `RuntimeError`s the
script raises (each carrying the data interpolated into its message);
`unicodeDecodeError` is a `line.decode()` failure inside the printing
loop; `unboundLocalOutput` is the `UnboundLocalError` from reading
`output` when no `try`/`except` branch assigned it; `uncaught` is an
exception from the wait that the `finally` block let propagate. -/
inductive RunError where
  | timeout (secs : Nat) (cmd : String)
  | nonZeroExit (code : Option Int) (cmd : String)
  | unicodeDecodeError
  | unboundLocalOutput
  | uncaught (excName : String)
deriving DecidableEq

/-- Process-level actions of one `run_command` call, in program order. -/
inductive ProcAction where
  | spawn (cmd : String)
  | waitDone
  | waitTimeoutRaised
  | waitOtherRaised
  | kill
  | collectRemaining
deriving DecidableEq

/-- Everything observable about one `run_command` call: the actions on
the subprocess, the lines printed, the error raised (`none` = normal
return), and the value of the `timedout` flag at the end. -/
structure RunOutcome where
  actions : List ProcAction
  printed : List String
  error : Option RunError
  timedout : Bool
deriving DecidableEq

/-- The `finally` block of `run_command`: given the `timedout` flag,
`process.returncode` (`none` models Python's `None`, and `None != 0` is
true), the captured `output` (`none` when the local was never bound)
and the exception in flight (`pending`), returns the lines printed by
the block and the error that leaves the function.  When the guard is
taken the block always raises, replacing `pending`; printing `args_str`
precedes the line loop, which can itself raise. -/
def finallyBlock (args_str : String) (timedout : Bool)
    (returncode : Option Int) (output : Option (List Nat))
    (pending : Option RunError) : List String × Option RunError :=
  if returncode != some 0 || timedout then
    match output with
    | none => ([args_str], some .unboundLocalOutput)
    | some out =>
      let pr := printOutputLines (bsplitlines out)
      if pr.2 then
        if timedout then
          (args_str :: pr.1, some (.timeout TIMEOUT args_str))
        else
          (args_str :: pr.1, some (.nonZeroExit returncode args_str))
      else
        (args_str :: pr.1, some .unicodeDecodeError)
  else ([], pending)

/-- `run_command(args_str)` under a given behaviour of the spawned
process: spawns, waits (with the three possible resolutions of
`communicate`), on timeout kills and collects remaining output, and
runs the `finally` block. -/
def run_command (args_str : String) (beh : ProcBehavior) : RunOutcome :=
  match beh with
  | .completes rc out =>
    let fin := finallyBlock args_str false (some rc) (some out) none
    { actions := [.spawn args_str, .waitDone],
      printed := fin.1, error := fin.2, timedout := false }
  | .timesOut rc out =>
    let fin := finallyBlock args_str true (some rc) (some out) none
    { actions := [.spawn args_str, .waitTimeoutRaised, .kill,
                  .collectRemaining],
      printed := fin.1, error := fin.2, timedout := true }
  | .waitFails exc rc =>
    let fin := finallyBlock args_str false rc none (some (.uncaught exc))
    { actions := [.spawn args_str, .waitOtherRaised],
      printed := fin.1, error := fin.2, timedout := false }

/-- A printed item of the whole script: `print(java_command)` prints a
Python list value, the other prints print strings. -/
inductive PrintItem where
  | listVal (xs : List String)
  | strVal (s : String)
deriving DecidableEq

/-- The whole script: capture `sys.argv[1:]`, build and print the
command, then `run_command(command_string)`. -/
def script (argv_tail : List String) (beh : ProcBehavior) :
    List PrintItem × RunOutcome :=
  let cmd := command_string argv_tail
  let r := run_command cmd beh
  (PrintItem.listVal (java_command argv_tail) :: PrintItem.strVal cmd ::
    r.printed.map PrintItem.strVal, r)

/-- One step of subprocess liveness along the action trace: a spawn
makes a process live; a completed wait, a kill, or the second
collection (which reaps the killed process) leaves it not live. -/
def liveStep (live : Bool) : ProcAction → Bool
  | .spawn _ => true
  | .waitDone => false
  | .waitTimeoutRaised => live
  | .waitOtherRaised => live
  | .kill => false
  | .collectRemaining => false

/-- `noOverlap live tr` holds when every `spawn` in `tr` happens while
no earlier-spawned process is still live. -/
def noOverlap : Bool → List ProcAction → Bool
  | _, [] => true
  | live, a :: as =>
    (match a with
     | ProcAction.spawn _ => !live
     | _ => true) && noOverlap (liveStep live a) as

/-- The action trace of two sequential `run_command` calls: the second
call happens only if the first returned without raising. -/
def twoSequentialRuns (c1 c2 : String) (b1 b2 : ProcBehavior) :
    List ProcAction :=
  let r1 := run_command c1 b1
  match r1.error with
  | none => r1.actions ++ (run_command c2 b2).actions
  | some _ => r1.actions

/-- If every line decodes, the printing loop runs to completion and
prints exactly the decoded lines in order. -/
theorem allDecode_printOutputLines (ls : List (List Nat)) (ss : List String)
    (h : allDecode ls = some ss) : printOutputLines ls = (ss, true) := by
  induction ls generalizing ss with
  | nil =>
    simp [allDecode] at h
    subst h
    rfl
  | cons l ls ih =>
    rcases hd : utf8Decode l with _ | s
    · simp [allDecode, hd] at h
    · rcases ht : allDecode ls with _ | ss'
      · simp [allDecode, hd, ht] at h
      · simp [allDecode, hd, ht] at h
        subst h
        simp [printOutputLines, hd, ih ss' ht]

/-- A timed-out run always raises some error. -/
theorem run_command_timesOut_error_isSome (cmd : String) (rc : Int)
    (out : List Nat) :
    (run_command cmd (.timesOut rc out)).error.isSome = true := by
  simp only [run_command, finallyBlock, Bool.or_true, if_true]
  split <;> rfl

/-- A run whose wait fails with a non-timeout exception always raises
some error (the unbound-local error or the original exception). -/
theorem run_command_waitFails_error_isSome (cmd exc : String)
    (rc : Option Int) :
    (run_command cmd (.waitFails exc rc)).error.isSome = true := by
  simp only [run_command, finallyBlock]
  split <;> rfl

/-- Claim C1: for every argument list `A` the command string is the
fixed `mvn` template whose final flag is `-Dexec.args="J"` with `J` the
elements of `A` joined by single spaces; so the string contains that
flag as a suffix, and an empty `A` yields an empty `J`. -/
theorem command_string_template (A : List String) :
    command_string A
      = "mvn -e exec:java -Dexec.classpathScope=\"test\" -Dexec.mainClass=\"software.amazon.awssdk.crt.test.Elasticurl\" -Dexec.args=\""
        ++ mvn_args A ++ "\""
    ∧ (∃ p, command_string A
        = p ++ ("-Dexec.args=\"" ++ mvn_args A ++ "\""))
    ∧ mvn_args [] = "" :=
  ⟨rfl,
   ⟨"mvn -e exec:java -Dexec.classpathScope=\"test\" -Dexec.mainClass=\"software.amazon.awssdk.crt.test.Elasticurl\" ",
    rfl⟩,
   rfl⟩

/-- Counterexample to claim C2 as stated: a process that completes
within the timeout with exit code 7 but whose captured output byte
`0xFF` is not valid UTF-8 makes `run_command` raise the decode error,
not a NonZeroExit carrying 7. -/
theorem run_command_nonzero_undecodable_cex :
    (run_command "cmd" (.completes 7 [0xFF])).error
      = some RunError.unicodeDecodeError
    ∧ (run_command "cmd" (.completes 7 [0xFF])).error
      ≠ some (RunError.nonZeroExit (some 7) "cmd") := by
  decide

/-- Claim C2 (amended): when the process completes within the timeout
with a nonzero exit code and every captured output line decodes as
UTF-8, `run_command` raises the nonzero-exit error carrying that code
and the full command string, and the timed-out flag is false. -/
theorem run_command_nonzero_exit (cmd : String) (rc : Int) (out : List Nat)
    (ss : List String) (hrc : rc ≠ 0)
    (hdec : allDecode (bsplitlines out) = some ss) :
    (run_command cmd (.completes rc out)).error
      = some (.nonZeroExit (some rc) cmd)
    ∧ (run_command cmd (.completes rc out)).timedout = false := by
  have hc : (some rc != some (0 : Int)) = true := by simp [bne_iff_ne, hrc]
  refine ⟨?_, rfl⟩
  simp [run_command, finallyBlock, hc, allDecode_printOutputLines _ _ hdec]

/-- Witness for `run_command_nonzero_exit` at exit code 7 and output
bytes `hi`. -/
theorem run_command_nonzero_exit_witness :
    (7 : Int) ≠ 0
    ∧ allDecode (bsplitlines [104, 105]) = some ["hi"]
    ∧ (run_command "x" (.completes 7 [104, 105])).error
        = some (.nonZeroExit (some 7) "x")
    ∧ (run_command "x" (.completes 7 [104, 105])).timedout = false :=
  have h := run_command_nonzero_exit "x" 7 [104, 105] ["hi"]
    (by decide) (by decide)
  ⟨by decide, by decide, h.1, h.2⟩

/-- Counterexample to claim C3 as stated: a timed-out run whose
captured output byte `0x80` is not valid UTF-8 raises the decode error,
not the Timeout error. -/
theorem run_command_timeout_undecodable_cex :
    (run_command "t" (.timesOut 0 [0x80])).error
      = some RunError.unicodeDecodeError
    ∧ (run_command "t" (.timesOut 0 [0x80])).error
      ≠ some (RunError.timeout 100 "t") := by
  decide

/-- Claim C3 (amended): on every timed-out run `run_command` sets the
timed-out flag, kills the process, and performs a second collection of
remaining output, unconditionally; and provided every captured output
line decodes as UTF-8 it raises the Timeout error carrying the
configured 100-second timeout and the full command string. -/
theorem run_command_timeout_classified (cmd : String) (rc : Int)
    (out : List Nat) :
    (run_command cmd (.timesOut rc out)).timedout = true
    ∧ (run_command cmd (.timesOut rc out)).actions
        = [.spawn cmd, .waitTimeoutRaised, .kill, .collectRemaining]
    ∧ TIMEOUT = 100
    ∧ ∀ ss, allDecode (bsplitlines out) = some ss →
        (run_command cmd (.timesOut rc out)).error
          = some (.timeout TIMEOUT cmd) := by
  refine ⟨rfl, rfl, rfl, fun ss hdec => ?_⟩
  simp [run_command, finallyBlock, allDecode_printOutputLines _ _ hdec]

/-- Witness for `run_command_timeout_classified` with a killed exit
code of −9 and empty output. -/
theorem run_command_timeout_classified_witness :
    (run_command "t" (.timesOut (-9) [])).timedout = true
    ∧ (run_command "t" (.timesOut (-9) [])).actions
        = [.spawn "t", .waitTimeoutRaised, .kill, .collectRemaining]
    ∧ TIMEOUT = 100
    ∧ (run_command "t" (.timesOut (-9) [])).error
        = some (.timeout TIMEOUT "t") :=
  have h := run_command_timeout_classified "t" (-9) []
  ⟨h.1, h.2.1, h.2.2.1, h.2.2.2 [] (by decide)⟩

/-- Counterexample to claim C4 as stated: two runs with the same
(timed-out flag, exit code) pair — both not timed out, both exit code
7 — raise different errors, because an undecodable output byte changes
the raised error; so classification is not a function of the pair
alone. -/
theorem error_not_function_of_pair_cex :
    (run_command "p" (.completes 7 [])).timedout
      = (run_command "p" (.completes 7 [0xC0])).timedout
    ∧ (run_command "p" (.completes 7 [])).error
      ≠ (run_command "p" (.completes 7 [0xC0])).error := by
  decide

/-- Claim C4 (amended): among runs whose captured output fully decodes
as UTF-8, error classification is a function of the (timed-out flag,
exit code) pair, and the timed-out flag takes precedence: a timed-out
run raises the Timeout error even when the killed process's exit code
is arbitrary (including 0). -/
theorem error_classification_of_pair (cmd : String) (rc : Int)
    (out out' : List Nat) (ss ss' : List String)
    (h : allDecode (bsplitlines out) = some ss)
    (h' : allDecode (bsplitlines out') = some ss') :
    (run_command cmd (.timesOut rc out)).error = some (.timeout TIMEOUT cmd)
    ∧ (run_command cmd (.completes rc out)).error
        = (run_command cmd (.completes rc out')).error := by
  constructor
  · simp [run_command, finallyBlock, allDecode_printOutputLines _ _ h]
  · by_cases hrc : rc = 0
    · subst hrc
      simp [run_command, finallyBlock]
    · have hc : (some rc != some (0 : Int)) = true := by simp [bne_iff_ne, hrc]
      simp [run_command, finallyBlock, hc, allDecode_printOutputLines _ _ h,
        allDecode_printOutputLines _ _ h']

/-- Witness for `error_classification_of_pair` at killed exit code 0
(timeout precedence) and two different decodable outputs. -/
theorem error_classification_of_pair_witness :
    allDecode (bsplitlines []) = some []
    ∧ allDecode (bsplitlines [10]) = some [""]
    ∧ ((run_command "p" (.timesOut 0 [])).error = some (.timeout TIMEOUT "p")
      ∧ (run_command "p" (.completes 0 [])).error
          = (run_command "p" (.completes 0 [10])).error) :=
  ⟨by decide, by decide,
   error_classification_of_pair "p" 0 [] [10] [] [""] (by decide) (by decide)⟩

/-- Claim C5: a run whose process exits 0 within the timeout returns
normally; the whole script prints exactly the two pre-run diagnostics
(the argument-list form and the joined command string), the captured
output is discarded, and no error is raised. -/
theorem script_silent_success (A : List String) (out : List Nat) :
    script A (.completes 0 out)
      = ([PrintItem.listVal (java_command A),
          PrintItem.strVal (command_string A)],
         { actions := [.spawn (command_string A), .waitDone], printed := [],
           error := none, timedout := false }) := by
  simp [script, run_command, finallyBlock]

/-- Counterexample to claim C6 as stated: on a failing run whose
second captured line is the invalid byte `0xFF`, the printed sequence
is the command followed by only the first line — the third line is
never printed and the decode error is raised instead of the documented
one. -/
theorem failure_print_partial_cex :
    bsplitlines [104, 10, 0xFF, 10, 105] = [[104], [0xFF], [105]]
    ∧ (run_command "c" (.completes 7 [104, 10, 0xFF, 10, 105])).printed
        = ["c", "h"]
    ∧ (run_command "c" (.completes 7 [104, 10, 0xFF, 10, 105])).error
        = some RunError.unicodeDecodeError := by
  decide

/-- Claim C6 (amended): on every failing run — nonzero exit code, or
timeout regardless of exit code, including a killed exit code of 0 —
whose captured output lines all decode as UTF-8, the printed sequence
is exactly the original command string followed by every decoded
output line in order, and the documented error is what the call
finally raises. -/
theorem failure_print_sequence (cmd : String) (rc : Int) (out : List Nat)
    (ss : List String)
    (hdec : allDecode (bsplitlines out) = some ss) :
    (rc ≠ 0 →
      (run_command cmd (.completes rc out)).printed = cmd :: ss
      ∧ (run_command cmd (.completes rc out)).error
          = some (.nonZeroExit (some rc) cmd))
    ∧ (run_command cmd (.timesOut rc out)).printed = cmd :: ss
    ∧ (run_command cmd (.timesOut rc out)).error
        = some (.timeout TIMEOUT cmd) := by
  refine ⟨fun hrc => ?_, ?_, ?_⟩
  · have hc : (some rc != some (0 : Int)) = true := by simp [bne_iff_ne, hrc]
    constructor <;>
      simp [run_command, finallyBlock, hc, allDecode_printOutputLines _ _ hdec]
  · simp [run_command, finallyBlock, allDecode_printOutputLines _ _ hdec]
  · simp [run_command, finallyBlock, allDecode_printOutputLines _ _ hdec]

/-- Witness for `failure_print_sequence` with output bytes `ok`, at
exit code 5 for the nonzero-exit sequence and at killed exit code 0
for the timed-out sequence. -/
theorem failure_print_sequence_witness :
    allDecode (bsplitlines [111, 107]) = some ["ok"]
    ∧ (5 : Int) ≠ 0
    ∧ (run_command "f" (.completes 5 [111, 107])).printed = "f" :: ["ok"]
    ∧ (run_command "f" (.completes 5 [111, 107])).error
        = some (.nonZeroExit (some 5) "f")
    ∧ (run_command "f" (.timesOut 0 [111, 107])).printed = "f" :: ["ok"]
    ∧ (run_command "f" (.timesOut 0 [111, 107])).error
        = some (.timeout TIMEOUT "f") :=
  have h5 := failure_print_sequence "f" 5 [111, 107] ["ok"] (by decide)
  have h0 := failure_print_sequence "f" 0 [111, 107] ["ok"] (by decide)
  ⟨by decide, by decide, (h5.1 (by decide)).1, (h5.1 (by decide)).2,
   h0.2.1, h0.2.2⟩

/-- Counterexample to claim C7 as stated: when the wait fails with a
non-timeout exception and the process was never reaped (exit code
`None`), the run raises the unbound-local error for `output` — neither
of the two documented errors — right after printing the command. -/
theorem wait_failure_not_documented_cex :
    (run_command "w" (.waitFails "OSError" none)).error
      = some RunError.unboundLocalOutput
    ∧ (run_command "w" (.waitFails "OSError" none)).printed = ["w"] := by
  decide

/-- Claim C7 (amended): the final inspection of the exit code and the
timed-out flag is reached however the wait resolves, but on a
non-timeout failure of the wait it does not produce a documented
error: if the recorded exit code differs from 0 (including the unset
`None`) it raises the unbound-local error for `output` after printing
only the command string, and otherwise the original exception
propagates with nothing printed. -/
theorem wait_failure_inspection (cmd exc : String) (rc : Option Int) :
    (run_command cmd (.waitFails exc rc)).error
      = (if rc != some 0 then some RunError.unboundLocalOutput
         else some (RunError.uncaught exc))
    ∧ (run_command cmd (.waitFails exc rc)).printed
      = (if rc != some 0 then [cmd] else []) := by
  by_cases h : rc = some 0
  · subst h
    simp [run_command, finallyBlock]
  · have hc : (rc != some (0 : Int)) = true := by simp [bne_iff_ne, h]
    simp [run_command, finallyBlock, hc]

/-- Claim C8: across two sequential `run_command` calls — the second
happening only if the first returned without raising — every spawn in
the combined action trace occurs while no earlier-spawned process is
live, so no two subprocesses ever overlap. -/
theorem no_overlapping_subprocesses (c1 c2 : String) (b1 b2 : ProcBehavior) :
    noOverlap false (twoSequentialRuns c1 c2 b1 b2) = true := by
  cases b1 with
  | completes rc out =>
    rcases h : (run_command c1 (.completes rc out)).error with _ | e
    · simp only [twoSequentialRuns, h]
      cases b2 <;> rfl
    · simp only [twoSequentialRuns, h]
      rfl
  | timesOut rc out =>
    rcases h : (run_command c1 (.timesOut rc out)).error with _ | e
    · have hs := run_command_timesOut_error_isSome c1 rc out
      rw [h] at hs
      simp at hs
    · simp only [twoSequentialRuns, h]
      rfl
  | waitFails exc rc =>
    rcases h : (run_command c1 (.waitFails exc rc)).error with _ | e
    · have hs := run_command_waitFails_error_isSome c1 exc rc
      rw [h] at hs
      simp at hs
    · simp only [twoSequentialRuns, h]
      rfl

/-- Claim C9: command construction is not injective — the one-element
list with the string `a b` and the two-element list of `a` and `b`
are distinct argument lists yielding the identical command string. -/
theorem command_not_injective :
    ∃ A B : List String, A ≠ B ∧ command_string A = command_string B :=
  ⟨["a b"], ["a", "b"], by decide, rfl⟩

/-- Claim C10: on the failure path each output line is decoded as
strict UTF-8 with no error handling: the single byte `0xFF` is not
decodable, and a failing run (nonzero exit or timeout) whose output is
that byte raises the decode error, so the documented error never
surfaces; a decodable line such as `hi` decodes normally. -/
theorem decode_error_preempts_documented_error :
    utf8Decode [0xFF] = none
    ∧ utf8Decode [104, 105] = some "hi"
    ∧ (run_command "d" (.completes 7 [0xFF])).error
        = some RunError.unicodeDecodeError
    ∧ (run_command "d" (.timesOut 7 [0xFF])).error
        = some RunError.unicodeDecodeError := by
  decide
